import Mathlib

/-!
Shallow embedding of the WiZ Art-Net bridge (artnet-daemon.js, server.js,
wiz-discovery.js) and proofs about its per-bulb queueing, coalescing,
off-verification retry, dimmer conversion, codec params, discovery
aggregation and supervisor restart logic.
-/

namespace WizBridge

/-- A slot vector: the six DMX-derived values plus the derived on/off state,
as stored in `lastReceivedDmxValues` / `lastSentDmxValues` and in queued
messages. -/
structure SlotVector where
  r : Nat
  g : Nat
  b : Nat
  c : Nat
  w : Nat
  dimming : Nat
  state : Bool
deriving DecidableEq

/-- A bulb record as loaded from storage (`device` in the source). -/
structure Device where
  macAddress : String
  ipAddress : String
  name : String
  channel : Nat
deriving DecidableEq

/-- A queued message: `{ device, r, g, b, c, w, dimming, state, retryCount }`
with the seven value fields grouped as a `SlotVector`. -/
structure Message where
  device : Device
  vec : SlotVector
  retryCount : Nat
deriving DecidableEq

/-- Per-fixture stats `{ queued, sent, dropped }`. -/
structure QueueStats where
  queued : Nat
  sent : Nat
  dropped : Nat
deriving DecidableEq

/-- The all-zero / off vector `{ r: 0, g: 0, b: 0, c: 0, w: 0, dimming: 0, state: false }`
used to initialize the per-bulb last-value maps. -/
def initVector : SlotVector :=
  { r := 0, g := 0, b := 0, c := 0, w := 0, dimming := 0, state := false }

/-- JS object assignment `obj[k] = v` on a map keyed by MAC address. -/
def mapUpdate {α : Type} (f : String → Option α) (k : String) (v : α) :
    String → Option α :=
  fun x => if x = k then some v else f x

/-- The five per-bulb state maps of `ArtNetWizBridge`, keyed by MAC address;
a key absent from a JS object is `none`. -/
structure BridgeState where
  lastReceivedDmxValues : String → Option SlotVector
  lastSentDmxValues : String → Option SlotVector
  messageQueues : String → Option (List Message)
  processing : String → Option Bool
  queueStats : String → Option QueueStats

/-- The two unconditional assignments at the top of the
`this.devices.forEach` loop body in `loadDevices`: both last-value maps are
reset to the all-zero vector for the device's MAC. -/
def loadDevicesResetLast (s : BridgeState) (d : Device) : BridgeState :=
  { s with
    lastReceivedDmxValues := mapUpdate s.lastReceivedDmxValues d.macAddress initVector
    lastSentDmxValues := mapUpdate s.lastSentDmxValues d.macAddress initVector }

/-- One iteration of the `this.devices.forEach` loop in `loadDevices`:
resets both last-value maps to the all-zero vector unconditionally
(`loadDevicesResetLast`), and initializes the queue structures only when
`messageQueues[mac]` is absent (`if (!this.messageQueues[device.macAddress])`). -/
def loadDevicesStep (s : BridgeState) (d : Device) : BridgeState :=
  if (s.messageQueues d.macAddress).isSome then
    loadDevicesResetLast s d
  else
    { loadDevicesResetLast s d with
      messageQueues := mapUpdate s.messageQueues d.macAddress []
      processing := mapUpdate s.processing d.macAddress false
      queueStats := mapUpdate s.queueStats d.macAddress { queued := 0, sent := 0, dropped := 0 } }

/-- `loadDevices`: iterate `loadDevicesStep` over the device list read from
storage. -/
def loadDevices (s : BridgeState) (devices : List Device) : BridgeState :=
  devices.foldl loadDevicesStep s

/-- `Math.round((dimmerRaw / 255) * 100)`: round-half-up of `100·raw/255`,
written over ℕ as `⌊(40·raw + 51) / 102⌋`. For raw bytes 0–255 the JS
double computation never lands on a half-integer, so round-half-up equals
rounding of the exact rational (proved in the C7 theorem). -/
def dimmingOfRaw (raw : Nat) : Nat := (40 * raw + 51) / 102

/-- `const state = dimming > 0`. -/
def stateOfRaw (raw : Nat) : Bool := decide (0 < dimmingOfRaw raw)

/-- The queue/stats mutations of `enqueueMessage` (drop-oldest when the
queue already holds 10, then push and count); the trailing
`this.processQueue(...)` re-entry is modeled by `processQueueEntry`. -/
def enqueueMessage (q : List Message) (stats : QueueStats) (msg : Message) :
    List Message × QueueStats :=
  let dropped :=
    if q.length ≥ 10 then (q.tail, { stats with dropped := stats.dropped + 1 })
    else (q, stats)
  (dropped.1 ++ [msg], { dropped.2 with queued := dropped.2.queued + 1 })

/-- The per-fixture slice of bridge state that `processQueue(macAddress)`
reads and writes: `lastSentDmxValues[mac]`, `messageQueues[mac]`,
`processing[mac]`. -/
structure PumpState where
  lastSent : SlotVector
  queue : List Message
  processing : Bool
deriving DecidableEq

/-- What the synchronous part of `processQueue` did. -/
inductive PumpResult where
  | idle
  | coalescedDrop
  | dispatched (m : Message) (stateChanged : Bool)
deriving DecidableEq

/-- The synchronous entry of `processQueue`: return if already processing or
the queue is empty; otherwise set `processing = true`, shift the head
message, compute `stateChanged`, and either return early when the message
equals `lastSent` field-for-field (the source does NOT clear `processing`
on this path) or hand the message to `sendWizCommandQueued`. -/
def processQueueEntry (s : PumpState) : PumpState × PumpResult :=
  if s.processing then (s, .idle)
  else
    match s.queue with
    | [] => (s, .idle)
    | m :: rest =>
      let s1 : PumpState := { s with processing := true, queue := rest }
      let stateChanged := s.lastSent.state != m.vec.state
      if s.lastSent = m.vec then (s1, .coalescedDrop)
      else (s1, .dispatched m stateChanged)

/-- The completion callback passed by `processQueue` to
`sendWizCommandQueued`: count the send; when the message was an
off-transition (`stateChanged && !message.state`), the off-verifier runs
and its outcome is the `verified` argument; on failure with
`retryCount < 3` clear `processing`, re-enqueue the same vector with
`retryCount + 1` and return (leaving `lastSent` alone); in every other
case clear `processing` and update `lastSent` to the vector just sent.
The trailing `processQueue` re-entry is modeled by `processQueueEntry`. -/
def afterSendCallback (s : PumpState) (stats : QueueStats) (m : Message)
    (stateChanged verified : Bool) : PumpState × QueueStats :=
  let stats1 := { stats with sent := stats.sent + 1 }
  if stateChanged = true ∧ m.vec.state = false then
    if verified = false ∧ m.retryCount < 3 then
      let enq := enqueueMessage s.queue stats1
        { device := m.device, vec := m.vec, retryCount := m.retryCount + 1 }
      ({ s with processing := false, queue := enq.1 }, enq.2)
    else
      ({ s with processing := false, lastSent := m.vec }, stats1)
  else
    ({ s with processing := false, lastSent := m.vec }, stats1)

/-- The `params` object of an outbound `setPilot`; `c` and `w` are optional
keys. -/
structure PilotParams where
  r : Nat
  g : Nat
  b : Nat
  dimming : Nat
  state : Bool
  c : Option Nat
  w : Option Nat
deriving DecidableEq

/-- Construction of `params` in `sendWizCommandQueued`: `r`, `g`, `b`,
`dimming`, `state` always; `c` and `w` added only when strictly positive. -/
def mkParams (v : SlotVector) : PilotParams :=
  { r := v.r, g := v.g, b := v.b, dimming := v.dimming, state := v.state
    c := if v.c > 0 then some v.c else none
    w := if v.w > 0 then some v.w else none }

/-- Observable actions of `sendWizCommandQueued`. -/
inductive SendEvent where
  | sendDatagram (p : PilotParams)
  | callback
deriving DecidableEq

/-- `sendWizCommandQueued` as its trace of observable actions: when
`!state && !stateChanged` it skips the UDP send and invokes the callback
immediately; otherwise it sends exactly one `setPilot` datagram and the
callback runs from the send-completion handler. -/
def sendWizCommandQueued (v : SlotVector) (stateChanged : Bool) :
    List SendEvent :=
  if v.state = false ∧ stateChanged = false then
    [SendEvent.callback]
  else
    [SendEvent.sendDatagram (mkParams v), SendEvent.callback]

/-- The supervisor state of server.js: whether `artnetDaemon` is non-null,
the exponential-backoff counter `restartCount`, `lastRestartTime`
(milliseconds, `null` before the first exit), and the number of
`setTimeout(() => startArtNetDaemon(), delay)` timers currently pending. -/
structure SupervisorState where
  daemonRunning : Bool
  restartCount : Nat
  lastRestartTime : Option Nat
  pendingRestarts : Nat
deriving DecidableEq

/-- `const MAX_RESTART_DELAY = 60000`. -/
def MAX_RESTART_DELAY : Nat := 60000

/-- The `'exit'` handler installed by `startArtNetDaemon`: null out the
handle, bump or reset `restartCount` depending on whether the previous
restart was less than 60 s ago, record `lastRestartTime`, and schedule a
restart after `min(2^restartCount · 1000, MAX_RESTART_DELAY)` ms. The
handler runs on every child exit; nothing guards the orderly-stop case.
Returns the new state and the computed delay. -/
def onChildExit (s : SupervisorState) (now : Nat) : SupervisorState × Nat :=
  let restartCount :=
    match s.lastRestartTime with
    | some t => if now - t < 60000 then s.restartCount + 1 else 0
    | none => 0
  let delay := min (2 ^ restartCount * 1000) MAX_RESTART_DELAY
  ({ s with
      daemonRunning := false
      restartCount := restartCount
      lastRestartTime := some now
      pendingRestarts := s.pendingRestarts + 1 }, delay)

/-- `stopArtNetDaemon`: if the handle is non-null, kill the child, null the
handle and reset `restartCount` to 0. No timer handle is saved anywhere, so
no pending restart is cancelled; the killed child will still emit `'exit'`. -/
def stopArtNetDaemon (s : SupervisorState) : SupervisorState :=
  if s.daemonRunning then
    { s with daemonRunning := false, restartCount := 0 }
  else s

/-- A parsed `getPilot` reply body (`response.result`); each field is
`none` when the key is absent. -/
structure PilotResult where
  mac : Option String
  state : Option Bool
  rssi : Option Int
  dimming : Option Nat
deriving DecidableEq

/-- One UDP datagram arriving on the discovery socket: `payload` is `none`
when `JSON.parse` throws, otherwise `(response.method, response.result)`;
`src` is `rinfo.address`. -/
structure Incoming where
  payload : Option (String × Option PilotResult)
  src : String
deriving DecidableEq

/-- JS `x || d` on a possibly-absent boolean. -/
def jsOrBool (x : Option Bool) (d : Bool) : Bool :=
  match x with
  | none => d
  | some v => if v = false then d else v

/-- JS `x || d` on a possibly-absent number (0 is falsy). -/
def jsOrInt (x : Option Int) (d : Int) : Int :=
  match x with
  | none => d
  | some v => if v = 0 then d else v

/-- JS `x || d` on a possibly-absent non-negative number (0 is falsy). -/
def jsOrNat (x : Option Nat) (d : Nat) : Nat :=
  match x with
  | none => d
  | some v => if v = 0 then d else v

/-- A record pushed onto `discoveredDevices`. -/
structure DiscoveredDevice where
  macAddress : String
  ipAddress : String
  state : Bool
  rssi : Int
  dimming : Nat
  raw : PilotResult
deriving DecidableEq

/-- The record built for a newly seen MAC: ip from the reply's source
address, and `result.state || false`, `result.rssi || 0`,
`result.dimming || 100`. -/
def mkDiscovered (mac src : String) (res : PilotResult) : DiscoveredDevice :=
  { macAddress := mac
    ipAddress := src
    state := jsOrBool res.state false
    rssi := jsOrInt res.rssi 0
    dimming := jsOrNat res.dimming 100
    raw := res }

/-- The discovery socket's `'message'` handler acting on the accumulator
`(seenMacs, discoveredDevices)`: malformed datagrams are ignored; a reply
is accepted when `response.method === 'getPilot'`, `response.result` is
present and `response.result.mac` is truthy (a non-empty string); each MAC
is added at most once. -/
def handleDiscoveryMessage (acc : List String × List DiscoveredDevice)
    (msg : Incoming) : List String × List DiscoveredDevice :=
  match msg.payload with
  | none => acc
  | some (method, result) =>
    if method = "getPilot" then
      match result with
      | none => acc
      | some res =>
        match res.mac with
        | none => acc
        | some mac =>
          if mac = "" then acc
          else if mac ∈ acc.1 then acc
          else (mac :: acc.1, acc.2 ++ [mkDiscovered mac msg.src res])
    else acc

/-- `discoverWizFixtures` as a function of the sequence of datagrams that
arrive on the socket within the timeout window: fold the message handler
and return the aggregated device list. -/
def discoverWizFixtures (msgs : List Incoming) : List DiscoveredDevice :=
  (msgs.foldl handleDiscoveryMessage ([], [])).2

/-- Whether a datagram passes the handler's acceptance tests, and with
which MAC and result. -/
def validReply (msg : Incoming) : Option (String × PilotResult) :=
  match msg.payload with
  | some (method, some res) =>
    if method = "getPilot" then
      match res.mac with
      | some mac => if mac = "" then none else some (mac, res)
      | none => none
    else none
  | _ => none

/-- Modelled from the spec (§4.6) for the C9 refinement: each MAC is
reported once with the first reply for that MAC winning; the record takes
its ip from that reply's source; repeated MACs and malformed datagrams add
nothing. -/
def discoverySpec : List Incoming → List String → List DiscoveredDevice
  | [], _ => []
  | msg :: rest, seen =>
    match validReply msg with
    | none => discoverySpec rest seen
    | some (mac, res) =>
      if mac ∈ seen then discoverySpec rest seen
      else mkDiscovered mac msg.src res :: discoverySpec rest (mac :: seen)

/-- The list of MAC addresses of a device list. -/
def macsOf (ds : List Device) : List String := ds.map (·.macAddress)

/-- A sample configured bulb used in concrete evaluations. -/
def sampleDevice : Device :=
  { macAddress := "aa:bb:cc:dd:ee:01", ipAddress := "192.168.1.10"
    name := "bulb1", channel := 1 }

/-- A sample non-trivial slot vector. -/
def sampleVec : SlotVector :=
  { r := 255, g := 0, b := 0, c := 0, w := 0, dimming := 100, state := true }

/-- A sample bridge state in which `sampleDevice`'s MAC is already present in
all five per-bulb maps with non-initial values. -/
def c3Before : BridgeState :=
  { lastReceivedDmxValues := fun x => if x = sampleDevice.macAddress then some sampleVec else none
    lastSentDmxValues := fun x => if x = sampleDevice.macAddress then some sampleVec else none
    messageQueues := fun x => if x = sampleDevice.macAddress then some [] else none
    processing := fun x => if x = sampleDevice.macAddress then some false else none
    queueStats :=
      fun x => if x = sampleDevice.macAddress then some { queued := 7, sent := 5, dropped := 2 } else none }

/-- A sample supervisor state with a running child. -/
def c2State : SupervisorState :=
  { daemonRunning := true, restartCount := 2, lastRestartTime := some 1000, pendingRestarts := 0 }

/-- A sample vector with `c = 0` and `w = 1`. -/
def c8Vec : SlotVector :=
  { r := 10, g := 20, b := 30, c := 0, w := 1, dimming := 50, state := true }

/-- A sample discovery reply result reporting `dimming = 0`. -/
def c10Res : PilotResult :=
  { mac := some "aa:bb:cc:dd:ee:02", state := some true, rssi := some (-60), dimming := some 0 }

end WizBridge

namespace WizBridge

/-! Helper lemmas. -/

theorem dimming_round (raw : Nat) :
    (dimmingOfRaw raw : ℤ) = round (((raw : ℚ) / 255) * 100) := by
  rw [round_eq]
  have h1 : ((raw : ℚ) / 255) * 100 + 1/2 = ((200*raw + 255 : ℕ) : ℚ) / ((510 : ℕ) : ℚ) := by
    push_cast; ring
  rw [h1, Rat.floor_natCast_div_natCast]
  unfold dimmingOfRaw
  omega

theorem enqueueMessage_length_le (q : List Message) (stats : QueueStats) (m : Message)
    (h : q.length ≤ 10) : (enqueueMessage q stats m).1.length ≤ 10 := by
  unfold enqueueMessage
  split
  · simp [List.length_tail]; omega
  · simp; omega

/-! Claim theorems. -/

/-- C1: the claim states that on a coalesced drop (dequeued vector equal to
`lastSent` field-for-field) `processQueue` clears `processing[mac]` and
drains the next item, leaving `processing[mac]` false. The source instead
returns early after having set `processing[mac] = true`, so after the
coalesced drop the flag is stuck at `true` and the pump never re-enters:
evaluated here on a bulb whose queue holds exactly one message equal to
`lastSent`. -/
theorem coalescedDrop_processing_stuck :
    (processQueueEntry
        { lastSent := initVector
          queue := [{ device := sampleDevice, vec := initVector, retryCount := 0 }]
          processing := false }).1.processing = true ∧
    (processQueueEntry
        { lastSent := initVector
          queue := [{ device := sampleDevice, vec := initVector, retryCount := 0 }]
          processing := false }).2 = PumpResult.coalescedDrop := by
  decide

/-- C2: the claim states that an explicit stop cancels pending restarts,
resets the counter, and that a child exit caused by orderly stop does not
trigger the restart path. In the source, `stopArtNetDaemon` resets
`restartCount` but saves no timer handle (so nothing is cancelled), and the
`'exit'` handler of the killed child unconditionally schedules another
restart: after stop followed by the child's exit, the number of pending
restart timers has grown by one. -/
theorem stop_then_exit_still_schedules_restart (s : SupervisorState) (now : Nat) :
    (stopArtNetDaemon s).pendingRestarts = s.pendingRestarts ∧
    (s.daemonRunning = true → (stopArtNetDaemon s).restartCount = 0) ∧
    (onChildExit (stopArtNetDaemon s) now).1.pendingRestarts = s.pendingRestarts + 1 := by
  refine ⟨?_, ?_, ?_⟩
  · unfold stopArtNetDaemon
    split <;> rfl
  · intro h
    unfold stopArtNetDaemon
    rw [if_pos h]
  · have hpend : ∀ (x : SupervisorState) (t : Nat),
        (onChildExit x t).1.pendingRestarts = x.pendingRestarts + 1 := fun _ _ => rfl
    rw [hpend]
    unfold stopArtNetDaemon
    split <;> rfl

/-- C2 witness: a running supervisor that is stopped and whose killed child
then exits ends up with one pending restart. -/
theorem stop_then_exit_still_schedules_restart_witness :
    c2State.daemonRunning = true ∧
    (stopArtNetDaemon c2State).pendingRestarts = 0 ∧
    (stopArtNetDaemon c2State).restartCount = 0 ∧
    (onChildExit (stopArtNetDaemon c2State) 5000).1.pendingRestarts = 1 := by
  obtain ⟨h1, h2, h3⟩ := stop_then_exit_still_schedules_restart c2State 5000
  exact ⟨rfl, h1, h2 rfl, h3⟩

/-- C4: after a failed off-verification (`stateChanged = true`, off vector,
`verified = false`) with `retryCount < 3`, the callback clears
`processing`, leaves `lastSent` untouched and re-enqueues the same vector
with `retryCount + 1` at the tail of the queue; with `retryCount = 3` it
gives up, clears `processing` and updates `lastSent` to the intended off
vector anyway. -/
theorem offVerify_retry_and_giveup (s : PumpState) (stats : QueueStats) (m : Message)
    (hoff : m.vec.state = false) :
    (m.retryCount < 3 →
      (afterSendCallback s stats m true false).1.processing = false ∧
      (afterSendCallback s stats m true false).1.lastSent = s.lastSent ∧
      (afterSendCallback s stats m true false).1.queue.getLast? =
        some { device := m.device, vec := m.vec, retryCount := m.retryCount + 1 } ∧
      (afterSendCallback s stats m true false).2.sent = stats.sent + 1) ∧
    (m.retryCount = 3 →
      (afterSendCallback s stats m true false).1.processing = false ∧
      (afterSendCallback s stats m true false).1.lastSent = m.vec ∧
      (afterSendCallback s stats m true false).2.sent = stats.sent + 1) := by
  constructor
  · intro hr
    simp only [afterSendCallback, enqueueMessage]
    rw [if_pos ⟨True.intro, hoff⟩, if_pos ⟨True.intro, hr⟩]
    refine ⟨rfl, rfl, ?_, ?_⟩
    · rw [List.getLast?_append_cons]
      rfl
    · split <;> rfl
  · intro hr
    simp only [afterSendCallback]
    rw [if_pos ⟨True.intro, hoff⟩, if_neg (by simp [hr])]
    exact ⟨rfl, rfl, rfl⟩

/-- C4 witness: a concrete failed off-verification at `retryCount = 2`
re-enqueues with `retryCount = 3` and keeps `lastSent`; at `retryCount = 3`
it updates `lastSent` to the off vector. -/
theorem offVerify_retry_and_giveup_witness :
    ({ device := sampleDevice, vec := initVector, retryCount := 2 } : Message).vec.state = false ∧
    (({ device := sampleDevice, vec := initVector, retryCount := 2 } : Message).retryCount < 3 ∧
      (afterSendCallback { lastSent := sampleVec, queue := [], processing := true }
          { queued := 3, sent := 2, dropped := 0 }
          { device := sampleDevice, vec := initVector, retryCount := 2 } true false).1.processing
        = false ∧
      (afterSendCallback { lastSent := sampleVec, queue := [], processing := true }
          { queued := 3, sent := 2, dropped := 0 }
          { device := sampleDevice, vec := initVector, retryCount := 2 } true false).1.lastSent
        = sampleVec ∧
      (afterSendCallback { lastSent := sampleVec, queue := [], processing := true }
          { queued := 3, sent := 2, dropped := 0 }
          { device := sampleDevice, vec := initVector, retryCount := 2 } true false).1.queue.getLast?
        = some { device := sampleDevice, vec := initVector, retryCount := 3 }) ∧
    (afterSendCallback { lastSent := sampleVec, queue := [], processing := true }
        { queued := 3, sent := 2, dropped := 0 }
        { device := sampleDevice, vec := initVector, retryCount := 3 } true false).1.lastSent
      = initVector := by
  have h2 := (offVerify_retry_and_giveup
    { lastSent := sampleVec, queue := [], processing := true }
    { queued := 3, sent := 2, dropped := 0 }
    { device := sampleDevice, vec := initVector, retryCount := 2 } rfl).1 (by decide)
  have h3 := (offVerify_retry_and_giveup
    { lastSent := sampleVec, queue := [], processing := true }
    { queued := 3, sent := 2, dropped := 0 }
    { device := sampleDevice, vec := initVector, retryCount := 3 } rfl).2 rfl
  exact ⟨rfl, ⟨by decide, h2.1, h2.2.1, h2.2.2.1⟩, h3.2.1⟩

/-- C5: `enqueueMessage` keeps every queue at length at most 10: below the
bound it appends at the tail leaving `dropped` alone; at the bound it
evicts the oldest message, increments `dropped` by exactly one and appends
the new message at the tail. The two other queue-touching operations —
`processQueue`'s dequeue and the send-completion callback — never grow a
queue beyond the bound either. -/
theorem queue_bound_and_eviction (q : List Message) (stats : QueueStats)
    (m msg : Message) (s : PumpState) (sc vf : Bool) :
    (q.length ≤ 10 → (enqueueMessage q stats m).1.length ≤ 10) ∧
    (q.length = 10 →
      (enqueueMessage q stats m).1 = q.tail ++ [m] ∧
      (enqueueMessage q stats m).2.dropped = stats.dropped + 1) ∧
    (q.length < 10 →
      (enqueueMessage q stats m).1 = q ++ [m] ∧
      (enqueueMessage q stats m).2.dropped = stats.dropped) ∧
    (processQueueEntry s).1.queue.length ≤ s.queue.length ∧
    (s.queue.length ≤ 10 → (afterSendCallback s stats msg sc vf).1.queue.length ≤ 10) := by
  refine ⟨enqueueMessage_length_le q stats m, ?_, ?_, ?_, ?_⟩
  · intro h
    have hge : q.length ≥ 10 := by omega
    simp [enqueueMessage, hge]
  · intro h
    have hlt : ¬(q.length ≥ 10) := by omega
    simp [enqueueMessage, hlt]
  · rcases s with ⟨ls, sq, pr⟩
    cases pr with
    | true => simp [processQueueEntry]
    | false =>
      cases sq with
      | nil => simp [processQueueEntry]
      | cons hd tl =>
        unfold processQueueEntry
        simp only [Bool.false_eq_true, if_false]
        split <;> simp
  · intro h
    unfold afterSendCallback
    split
    · split
      · simpa using enqueueMessage_length_le s.queue _ _ h
      · simpa using h
    · simpa using h

/-- C5 witness: enqueuing onto a full queue of 10 identical messages keeps
the length at 10, drops the head and bumps `dropped` once. -/
theorem queue_bound_and_eviction_witness :
    (List.replicate 10 ({ device := sampleDevice, vec := initVector, retryCount := 0 } : Message)).length = 10 ∧
    (enqueueMessage
        (List.replicate 10 ({ device := sampleDevice, vec := initVector, retryCount := 0 } : Message))
        { queued := 10, sent := 0, dropped := 0 }
        { device := sampleDevice, vec := sampleVec, retryCount := 0 }).1.length ≤ 10 ∧
    (enqueueMessage
        (List.replicate 10 ({ device := sampleDevice, vec := initVector, retryCount := 0 } : Message))
        { queued := 10, sent := 0, dropped := 0 }
        { device := sampleDevice, vec := sampleVec, retryCount := 0 }).2.dropped = 1 := by
  have h := queue_bound_and_eviction
    (List.replicate 10 ({ device := sampleDevice, vec := initVector, retryCount := 0 } : Message))
    { queued := 10, sent := 0, dropped := 0 }
    { device := sampleDevice, vec := sampleVec, retryCount := 0 }
    { device := sampleDevice, vec := sampleVec, retryCount := 0 }
    { lastSent := initVector, queue := [], processing := false } false false
  exact ⟨by decide, h.1 (by decide), ((h.2.1 (by decide)).2)⟩

/-- C6: a vector with `state = false` arriving with `stateChanged = false` is
suppressed by `sendWizCommandQueued` (no datagram, completion callback runs
immediately); any other vector produces exactly one `setPilot` datagram
followed by the completion callback. -/
theorem codec_off_suppression (v : SlotVector) (sc : Bool) :
    (v.state = false ∧ sc = false →
      sendWizCommandQueued v sc = [SendEvent.callback]) ∧
    (v.state = true ∨ sc = true →
      sendWizCommandQueued v sc = [SendEvent.sendDatagram (mkParams v), SendEvent.callback]) := by
  unfold sendWizCommandQueued
  constructor
  · rintro ⟨h1, h2⟩
    simp [h1, h2]
  · rintro (h | h) <;> simp [h]

/-- C6 witness: an off vector with `stateChanged = false` yields only the
callback, while `sampleVec` (state true) yields one datagram then the
callback. -/
theorem codec_off_suppression_witness :
    (initVector.state = false ∧ false = false) ∧
    sendWizCommandQueued initVector false = [SendEvent.callback] ∧
    sendWizCommandQueued sampleVec false
      = [SendEvent.sendDatagram (mkParams sampleVec), SendEvent.callback] := by
  refine ⟨⟨rfl, rfl⟩, ?_, ?_⟩
  · exact (codec_off_suppression initVector false).1 ⟨rfl, rfl⟩
  · exact (codec_off_suppression sampleVec false).2 (Or.inl rfl)

/-- C7: the dimmer mapping is `dimming = round(dimmer_raw / 255 * 100)`
(round-half-up of the exact rational) with `state = (dimming > 0)`; for
every raw byte 0–255 the result lies within 0–100, and raw 0 ↦ (0, off),
raw 255 ↦ (100, on), raw 127 ↦ 50. -/
theorem dimmer_mapping_round :
    (∀ raw : Fin 256,
      (dimmingOfRaw raw.val : ℤ) = round (((raw.val : ℚ) / 255) * 100) ∧
      dimmingOfRaw raw.val ≤ 100 ∧
      (stateOfRaw raw.val = true ↔ 0 < dimmingOfRaw raw.val)) ∧
    dimmingOfRaw 0 = 0 ∧ stateOfRaw 0 = false ∧
    dimmingOfRaw 255 = 100 ∧ stateOfRaw 255 = true ∧
    dimmingOfRaw 127 = 50 := by
  refine ⟨fun raw => ⟨dimming_round raw.val, ?_, ?_⟩, by decide, by decide, by decide, by decide, by decide⟩
  · have hlt := raw.isLt
    unfold dimmingOfRaw
    omega
  · simp [stateOfRaw]

/-- C8: every transmitted `setPilot` params object carries `r`, `g`, `b`,
`dimming`, `state` copied from the vector; the `c` key is present iff the
vector's `c` is positive (and then carries it), and likewise for `w`. -/
theorem setPilot_params_shape (v : SlotVector) :
    (mkParams v).r = v.r ∧ (mkParams v).g = v.g ∧ (mkParams v).b = v.b ∧
    (mkParams v).dimming = v.dimming ∧ (mkParams v).state = v.state ∧
    ((mkParams v).c.isSome ↔ 0 < v.c) ∧ ((mkParams v).w.isSome ↔ 0 < v.w) ∧
    (0 < v.c → (mkParams v).c = some v.c) ∧
    (0 < v.w → (mkParams v).w = some v.w) := by
  unfold mkParams
  by_cases hc : 0 < v.c <;> by_cases hw : 0 < v.w <;> simp [hc, hw]

/-- C8 witness: for a vector with `c = 0`, `w = 1` the params carry `w = 1`
and no `c` key. -/
theorem setPilot_params_shape_witness :
    (0 < (1 : Nat)) ∧ (mkParams c8Vec).w = some 1 ∧ (mkParams c8Vec).c = none :=
  ⟨by decide, (setPilot_params_shape c8Vec).2.2.2.2.2.2.2.2 (by decide), by decide⟩

/-! Step lemmas for `loadDevices`. -/

theorem step_lastReceived (s : BridgeState) (d : Device) (mac : String) :
    (loadDevicesStep s d).lastReceivedDmxValues mac =
      if mac = d.macAddress then some initVector else s.lastReceivedDmxValues mac := by
  unfold loadDevicesStep loadDevicesResetLast mapUpdate
  split <;> rfl

theorem step_lastSent (s : BridgeState) (d : Device) (mac : String) :
    (loadDevicesStep s d).lastSentDmxValues mac =
      if mac = d.macAddress then some initVector else s.lastSentDmxValues mac := by
  unfold loadDevicesStep loadDevicesResetLast mapUpdate
  split <;> rfl

theorem step_messageQueues (s : BridgeState) (d : Device) (mac : String) :
    (loadDevicesStep s d).messageQueues mac =
      if (s.messageQueues d.macAddress).isSome then s.messageQueues mac
      else if mac = d.macAddress then some [] else s.messageQueues mac := by
  unfold loadDevicesStep loadDevicesResetLast mapUpdate
  split <;> rfl

theorem step_processing (s : BridgeState) (d : Device) (mac : String) :
    (loadDevicesStep s d).processing mac =
      if (s.messageQueues d.macAddress).isSome then s.processing mac
      else if mac = d.macAddress then some false else s.processing mac := by
  unfold loadDevicesStep loadDevicesResetLast mapUpdate
  split <;> rfl

theorem step_queueStats (s : BridgeState) (d : Device) (mac : String) :
    (loadDevicesStep s d).queueStats mac =
      if (s.messageQueues d.macAddress).isSome then s.queueStats mac
      else if mac = d.macAddress then some { queued := 0, sent := 0, dropped := 0 }
      else s.queueStats mac := by
  unfold loadDevicesStep loadDevicesResetLast mapUpdate
  split <;> rfl

theorem loadDevices_not_mem (ds : List Device) (s : BridgeState) (mac : String)
    (h : mac ∉ macsOf ds) :
    (loadDevices s ds).lastReceivedDmxValues mac = s.lastReceivedDmxValues mac ∧
    (loadDevices s ds).lastSentDmxValues mac = s.lastSentDmxValues mac ∧
    (loadDevices s ds).messageQueues mac = s.messageQueues mac ∧
    (loadDevices s ds).processing mac = s.processing mac ∧
    (loadDevices s ds).queueStats mac = s.queueStats mac := by
  induction ds generalizing s with
  | nil => exact ⟨rfl, rfl, rfl, rfl, rfl⟩
  | cons d rest ih =>
    have hne : mac ≠ d.macAddress := by
      intro he
      exact h (by simp [macsOf, he])
    have hrest : mac ∉ macsOf rest := by
      intro he
      exact h (by simp [macsOf] at he ⊢; exact Or.inr he)
    have hstep := ih (loadDevicesStep s d) hrest
    refine ⟨?_, ?_, ?_, ?_, ?_⟩
    · rw [show loadDevices s (d :: rest) = loadDevices (loadDevicesStep s d) rest from rfl,
        hstep.1, step_lastReceived, if_neg hne]
    · rw [show loadDevices s (d :: rest) = loadDevices (loadDevicesStep s d) rest from rfl,
        hstep.2.1, step_lastSent, if_neg hne]
    · rw [show loadDevices s (d :: rest) = loadDevices (loadDevicesStep s d) rest from rfl,
        hstep.2.2.1, step_messageQueues]
      split <;> simp [hne]
    · rw [show loadDevices s (d :: rest) = loadDevices (loadDevicesStep s d) rest from rfl,
        hstep.2.2.2.1, step_processing]
      split <;> simp [hne]
    · rw [show loadDevices s (d :: rest) = loadDevices (loadDevicesStep s d) rest from rfl,
        hstep.2.2.2.2, step_queueStats]
      split <;> simp [hne]

theorem loadDevices_mem (ds : List Device) (s : BridgeState) (mac : String)
    (h : mac ∈ macsOf ds) :
    (loadDevices s ds).lastReceivedDmxValues mac = some initVector ∧
    (loadDevices s ds).lastSentDmxValues mac = some initVector ∧
    (loadDevices s ds).messageQueues mac =
      (if (s.messageQueues mac).isSome then s.messageQueues mac else some []) ∧
    (loadDevices s ds).processing mac =
      (if (s.messageQueues mac).isSome then s.processing mac else some false) ∧
    (loadDevices s ds).queueStats mac =
      (if (s.messageQueues mac).isSome then s.queueStats mac
       else some { queued := 0, sent := 0, dropped := 0 }) := by
  induction ds generalizing s with
  | nil => simp [macsOf] at h
  | cons d rest ih =>
    rw [show loadDevices s (d :: rest) = loadDevices (loadDevicesStep s d) rest from rfl]
    by_cases hrest : mac ∈ macsOf rest
    · have hstep := ih (loadDevicesStep s d) hrest
      by_cases hd : mac = d.macAddress
      · have hq1 := step_messageQueues s d mac
        have hq2 := step_processing s d mac
        have hq3 := step_queueStats s d mac
        rw [← hd] at hq1 hq2 hq3
        by_cases hsq : (s.messageQueues mac).isSome = true
        · rw [if_pos hsq] at hq1 hq2 hq3
          refine ⟨hstep.1, hstep.2.1, ?_, ?_, ?_⟩
          · rw [hstep.2.2.1, hq1]
          · rw [hstep.2.2.2.1, hq1, hq2]
          · rw [hstep.2.2.2.2, hq1, hq3]
        · rw [if_neg hsq, if_pos rfl] at hq1 hq2 hq3
          refine ⟨hstep.1, hstep.2.1, ?_, ?_, ?_⟩
          · rw [hstep.2.2.1, hq1, if_neg hsq]
            simp
          · rw [hstep.2.2.2.1, hq1, hq2, if_neg hsq]
            simp
          · rw [hstep.2.2.2.2, hq1, hq3, if_neg hsq]
            simp
      · have hq1 : (loadDevicesStep s d).messageQueues mac = s.messageQueues mac := by
          rw [step_messageQueues]
          split
          · rfl
          · rfl
        have hq2 : (loadDevicesStep s d).processing mac = s.processing mac := by
          rw [step_processing]
          split
          · rfl
          · rfl
        have hq3 : (loadDevicesStep s d).queueStats mac = s.queueStats mac := by
          rw [step_queueStats]
          split
          · rfl
          · rfl
        exact ⟨hstep.1, hstep.2.1,
          by rw [hstep.2.2.1, hq1],
          by rw [hstep.2.2.2.1, hq1, hq2],
          by rw [hstep.2.2.2.2, hq1, hq3]⟩
    · have hd : mac = d.macAddress := by
        simp [macsOf] at h
        rcases h with h1 | h1
        · exact h1
        · exact absurd (by simpa [macsOf] using h1) hrest
      have hrest2 := loadDevices_not_mem rest (loadDevicesStep s d) mac hrest
      refine ⟨?_, ?_, ?_, ?_, ?_⟩
      · rw [hrest2.1, step_lastReceived, if_pos hd]
      · rw [hrest2.2.1, step_lastSent, if_pos hd]
      · rw [hrest2.2.2.1, step_messageQueues, ← hd]
        simp
      · rw [hrest2.2.2.2.1, step_processing, ← hd]
        simp
      · rw [hrest2.2.2.2.2, step_queueStats, ← hd]
        simp

/-- C3 counterexample: the claim says a reload leaves an already-present
MAC's `lastSent` unchanged; on a state where `sampleDevice`'s MAC is
present in all maps with `lastSent = sampleVec`, reloading the one-device
list resets `lastSent` to the all-zero vector, which differs from
`sampleVec`. -/
theorem reload_resets_lastSent_counterexample :
    (c3Before.messageQueues sampleDevice.macAddress).isSome = true ∧
    c3Before.lastSentDmxValues sampleDevice.macAddress = some sampleVec ∧
    (loadDevices c3Before [sampleDevice]).lastSentDmxValues sampleDevice.macAddress
      = some initVector ∧
    decide (sampleVec = initVector) = false := by
  refine ⟨rfl, rfl, ?_, by decide⟩
  rw [show loadDevices c3Before [sampleDevice] = loadDevicesStep c3Before sampleDevice from rfl,
    step_lastSent, if_pos rfl]

/-- C3 amended: a config reload retains `queue`, `processing` and `stats`
for MACs already present in the queue maps, but resets `lastReceived` and
`lastSent` to the initial all-zero/off vector for every MAC in the
reloaded device list, previously seen or not; MACs not named in the list
keep all five components unchanged; MACs in the list but not previously
seen get fresh initial queue structures. -/
theorem reload_keeps_queues_resets_lastValues (s : BridgeState) (ds : List Device)
    (mac : String) :
    (mac ∈ macsOf ds →
      (loadDevices s ds).lastReceivedDmxValues mac = some initVector ∧
      (loadDevices s ds).lastSentDmxValues mac = some initVector ∧
      (loadDevices s ds).messageQueues mac =
        (if (s.messageQueues mac).isSome then s.messageQueues mac else some []) ∧
      (loadDevices s ds).processing mac =
        (if (s.messageQueues mac).isSome then s.processing mac else some false) ∧
      (loadDevices s ds).queueStats mac =
        (if (s.messageQueues mac).isSome then s.queueStats mac
         else some { queued := 0, sent := 0, dropped := 0 })) ∧
    (mac ∉ macsOf ds →
      (loadDevices s ds).lastReceivedDmxValues mac = s.lastReceivedDmxValues mac ∧
      (loadDevices s ds).lastSentDmxValues mac = s.lastSentDmxValues mac ∧
      (loadDevices s ds).messageQueues mac = s.messageQueues mac ∧
      (loadDevices s ds).processing mac = s.processing mac ∧
      (loadDevices s ds).queueStats mac = s.queueStats mac) :=
  ⟨fun h => loadDevices_mem ds s mac h, fun h => loadDevices_not_mem ds s mac h⟩

/-- C3 amended witness: reloading `[sampleDevice]` over `c3Before` keeps the
queue, processing flag and stats of the already-present MAC and resets its
`lastSent` to the initial vector. -/
theorem reload_keeps_queues_resets_lastValues_witness :
    sampleDevice.macAddress ∈ macsOf [sampleDevice] ∧
    (loadDevices c3Before [sampleDevice]).lastSentDmxValues sampleDevice.macAddress
      = some initVector ∧
    (loadDevices c3Before [sampleDevice]).messageQueues sampleDevice.macAddress
      = c3Before.messageQueues sampleDevice.macAddress ∧
    (loadDevices c3Before [sampleDevice]).queueStats sampleDevice.macAddress
      = c3Before.queueStats sampleDevice.macAddress := by
  have h := (reload_keeps_queues_resets_lastValues c3Before [sampleDevice]
    sampleDevice.macAddress).1 (by simp [macsOf])
  refine ⟨by simp [macsOf], h.2.1, ?_, ?_⟩
  · rw [h.2.2.1, if_pos (by decide)]
  · rw [h.2.2.2.2, if_pos (by decide)]

/-! Lemmas relating the discovery message handler to `validReply`. -/

theorem handle_validReply (acc : List String × List DiscoveredDevice) (msg : Incoming) :
    handleDiscoveryMessage acc msg =
      match validReply msg with
      | none => acc
      | some (mac, res) =>
        if mac ∈ acc.1 then acc
        else (mac :: acc.1, acc.2 ++ [mkDiscovered mac msg.src res]) := by
  obtain ⟨payload, src⟩ := msg
  rcases payload with _ | ⟨method, result⟩
  · rfl
  · rcases result with _ | ⟨rmac, rstate, rrssi, rdim⟩
    · simp [handleDiscoveryMessage, validReply]
    · rcases rmac with _ | mac
      · simp [handleDiscoveryMessage, validReply]
      · by_cases hmethod : method = "getPilot" <;>
          by_cases hempty : mac = "" <;>
            simp [handleDiscoveryMessage, validReply, hmethod, hempty]

theorem fold_discovery (msgs : List Incoming) (seen : List String)
    (devs : List DiscoveredDevice) :
    (msgs.foldl handleDiscoveryMessage (seen, devs)).2 = devs ++ discoverySpec msgs seen := by
  induction msgs generalizing seen devs with
  | nil => simp [discoverySpec]
  | cons msg rest ih =>
    rw [List.foldl_cons, handle_validReply]
    cases hv : validReply msg with
    | none => simp [discoverySpec, hv, ih]
    | some p =>
      obtain ⟨mac, res⟩ := p
      by_cases hm : mac ∈ seen
      · simp [discoverySpec, hv, hm, ih]
      · simp [discoverySpec, hv, hm, ih]

theorem discoverySpec_macs (msgs : List Incoming) (seen : List String) :
    ((discoverySpec msgs seen).map (fun d => d.macAddress)).Nodup ∧
    ∀ mac ∈ (discoverySpec msgs seen).map (fun d => d.macAddress), mac ∉ seen := by
  induction msgs generalizing seen with
  | nil => simp [discoverySpec]
  | cons msg rest ih =>
    cases hv : validReply msg with
    | none =>
      simp only [discoverySpec, hv]
      exact ih seen
    | some p =>
      obtain ⟨mac, res⟩ := p
      by_cases hm : mac ∈ seen
      · simp only [discoverySpec, hv, hm, if_true]
        exact ih seen
      · simp only [discoverySpec, hv, hm, if_false]
        obtain ⟨ihn, ihs⟩ := ih (mac :: seen)
        refine ⟨?_, ?_⟩
        · simp only [List.map_cons, List.nodup_cons]
          refine ⟨?_, ihn⟩
          intro hin
          have := ihs _ (by simpa [mkDiscovered] using hin)
          simp at this
        · intro x hx
          simp only [List.map_cons, List.mem_cons] at hx
          rcases hx with hx | hx
          · simpa [mkDiscovered] using hx ▸ hm
          · intro hseen
            exact ihs x hx (by simp [hseen])

/-- C9: over any sequence of datagrams received in the discovery window,
`discoverWizFixtures` refines the spec-side aggregator `discoverySpec`
(each MAC reported once, first reply for that MAC wins, ip taken from that
reply's source, repeated MACs and malformed datagrams add nothing and do
not abort the scan), and the reported MAC addresses carry no duplicates. -/
theorem discovery_dedup_first_wins (msgs : List Incoming) :
    discoverWizFixtures msgs = discoverySpec msgs [] ∧
    ((discoverWizFixtures msgs).map (fun d => d.macAddress)).Nodup := by
  have he : discoverWizFixtures msgs = discoverySpec msgs [] := by
    have h := fold_discovery msgs [] []
    simpa [discoverWizFixtures] using h
  refine ⟨he, ?_⟩
  rw [he]
  exact (discoverySpec_macs msgs []).1

/-- C10: `discoverWizFixtures`' record construction coalesces falsy values:
`state` is reported `false` when absent or `false`, `rssi` is `0` when
absent or `0`, and `dimming` is `100` when absent or `0` (so a bulb
genuinely reporting `dimming = 0` shows up with `dimming = 100`); a nonzero
reported dimming is passed through. -/
theorem discovery_falsy_defaults (mac src : String) (res : PilotResult) :
    (res.state = none ∨ res.state = some false → (mkDiscovered mac src res).state = false) ∧
    (res.rssi = none ∨ res.rssi = some 0 → (mkDiscovered mac src res).rssi = 0) ∧
    (res.dimming = none ∨ res.dimming = some 0 → (mkDiscovered mac src res).dimming = 100) ∧
    (∀ d : Nat, d ≠ 0 → res.dimming = some d → (mkDiscovered mac src res).dimming = d) := by
  unfold mkDiscovered jsOrBool jsOrInt jsOrNat
  refine ⟨?_, ?_, ?_, ?_⟩
  · rintro (h | h) <;> simp [h]
  · rintro (h | h) <;> simp [h]
  · rintro (h | h) <;> simp [h]
  · intro d hd h
    simp [h, hd]

/-- C10 witness: a reply whose result carries `dimming = 0` is reported with
`dimming = 100`. -/
theorem discovery_falsy_defaults_witness :
    (c10Res.dimming = none ∨ c10Res.dimming = some 0) ∧
    (mkDiscovered "aa:bb:cc:dd:ee:02" "192.168.1.11" c10Res).dimming = 100 :=
  ⟨Or.inr rfl,
    (discovery_falsy_defaults "aa:bb:cc:dd:ee:02" "192.168.1.11" c10Res).2.2.1 (Or.inr rfl)⟩

end WizBridge
